import Mathlib

/-!
Shallow embedding of the openclaw-sentinel trust/threat-detection engine
(src/dashboard: trust.py, baseline.py, crypto.py, smart_alerts.py), together
with theorems settling the specification claims about it.

Conventions of the embedding:
* Python strings are Lean `String`s; `str.lower()` is modelled as ASCII
  lowercasing (all inputs of interest are ASCII).
* Python dicts with string keys are association lists in insertion order;
  Python sets are lists whose membership is order-independent.
* Machine integers are `Nat`/`Int`; `statistics.mean` is exact rational
  arithmetic over `Rat`.
* `re.search` on the engine's regular-expression tables is abstracted as an
  oracle parameter `reSearch : String → String → Bool` (pattern, text); the
  pattern strings themselves are kept verbatim as data.  Regexes of the
  trivial form `word\s` and the token extractor `\b\w{4,}\b` are modelled
  executably.
* Fallible Python code is `Except PyErr _`; a `try`/`except` region maps each
  failing step to the handler's result.
-/

namespace Sentinel

/-! ## Python string primitives -/

/-- The characters of the ASCII `\s` class (and of `str.split`/`str.strip`). -/
def pyIsSpace (c : Char) : Bool :=
  c = ' ' || c = '\t' || c = '\n' || c = '\r' || c = '\x0b' || c = '\x0c'

/-- `str.lower()` (ASCII model). -/
def pyLower (s : String) : String :=
  String.mk (s.toList.map Char.toLower)

/-- `str.strip()`: drop leading and trailing whitespace. -/
def pyStrip (s : String) : String :=
  String.mk (((s.toList.dropWhile pyIsSpace).reverse.dropWhile pyIsSpace).reverse)

/-- Boolean contiguous-sublist test. -/
def listIsInfixOf (needle : List Char) : List Char → Bool
  | [] => needle.isEmpty
  | c :: rest => needle.isPrefixOf (c :: rest) || listIsInfixOf needle rest

/-- Python's substring test `needle in hay`. -/
def pyContains (hay needle : String) : Bool :=
  listIsInfixOf needle.toList hay.toList

/-- Python's `s.startswith(p)`. -/
def pyStartswith (s p : String) : Bool :=
  p.toList.isPrefixOf s.toList

/-- Python's slice `s[:n]`. -/
def pyTake (s : String) (n : Nat) : String :=
  String.mk (s.toList.take n)

/-- Maximal runs of characters satisfying `keep` (used for `str.split()` and
for the `\b\w{4,}\b` token extractor). -/
def runsBy (keep : Char → Bool) : List Char → List Char → List String
  | [], acc => if acc.isEmpty then [] else [String.mk acc.reverse]
  | c :: cs, acc =>
    if keep c then runsBy keep cs (c :: acc)
    else if acc.isEmpty then runsBy keep cs []
    else String.mk acc.reverse :: runsBy keep cs []

/-- Python's `str.split()` (split on whitespace runs, no empty fields). -/
def pySplit (s : String) : List String :=
  runsBy (fun c => !pyIsSpace c) s.toList []

/-- ASCII model of the regex class `\w`. -/
def isWordChar (c : Char) : Bool :=
  c.isAlphanum || c = '_'

/-- `re.findall(r'\b\w{4,}\b', s)`: maximal word-character runs of length at
least 4. -/
def findWords (s : String) : List String :=
  (runsBy isWordChar s.toList []).filter (fun t => 4 ≤ t.length)

/-- `set(re.findall(r'\b\w{4,}\b', s))`: the distinct such tokens. -/
def termSet (s : String) : List String :=
  (findWords s).dedup

/-- `re.search(w + r'\s', content)` for a literal `w`: some occurrence of `w`
immediately followed by a whitespace character. -/
def hasSubWS (w : List Char) : List Char → Bool
  | [] => false
  | c :: rest =>
    (w.isPrefixOf (c :: rest) &&
      (match (c :: rest).drop w.length with
       | d :: _ => pyIsSpace d
       | [] => false)) ||
    hasSubWS w rest

/-- The last `n` elements of a list (Python's `l[-n:]`). -/
def lastN (l : List α) (n : Nat) : List α :=
  l.drop (l.length - n)

/-- Association-list lookup with a default (`d.get(k, dflt)`). -/
def dictGet (d : List (String × String)) (k : String) (dflt : String) : String :=
  match d.find? (fun kv => kv.1 = k) with
  | some kv => kv.2
  | none => dflt

/-- Association-list lookup with a default, numeric values. -/
def dictGetNat (d : List (String × Nat)) (k : String) (dflt : Nat) : Nat :=
  match d.find? (fun kv => kv.1 = k) with
  | some kv => kv.2
  | none => dflt

/-- Association-list lookup returning an option (`k in d` plus `d[k]`). -/
def lookupStr (d : List (String × String)) (k : String) : Option String :=
  match d.find? (fun kv => kv.1 = k) with
  | some kv => some kv.2
  | none => none

/-- `str(details)` for a string-valued Python dict: its `repr`. -/
def pyDictRepr (d : List (String × String)) : String :=
  "\x7b" ++ String.intercalate ", "
    (d.map (fun kv => "'" ++ kv.1 ++ "': '" ++ kv.2 ++ "'")) ++ "\x7d"

/-- `str(risk_factors)` for a list of strings: its `repr`. -/
def pyListRepr (l : List String) : String :=
  "[" ++ String.intercalate ", " (l.map (fun s => "'" ++ s ++ "'")) ++ "]"

/-- Python exceptions that the embedded code can raise. -/
inductive PyErr where
  | runtimeError (msg : String)
  | indexError
deriving DecidableEq

/-! ## TrustEngine: trusted sessions (trust.py lines 83-89) -/

/-- `TrustEngine.is_trusted_session`: prefix matching (first 8 characters, in
either direction) against the trusted-session set. -/
def is_trusted_session (trusted_sessions : List String) (session_id : String) : Bool :=
  trusted_sessions.any (fun trusted =>
    pyStartswith session_id (pyTake trusted 8) || pyStartswith trusted (pyTake session_id 8))

theorem toList_mk (l : List Char) : (String.mk l).toList = l := rfl

theorem length_eq_toList_length (s : String) : s.length = s.toList.length := rfl

/-- C7: any session id sharing its first 8 characters with a member of the
trusted set is trusted, even when the full ids differ; and when no trusted
id's 8-character prefix matches the session id in either direction,
`is_trusted_session` returns false. -/
theorem trusted_session_prefix_rule (ts : List String) (s : String) :
    (∀ t, t ∈ ts → 8 ≤ s.length → 8 ≤ t.length → pyTake s 8 = pyTake t 8 →
      is_trusted_session ts s = true) ∧
    ((∀ t, t ∈ ts → pyStartswith s (pyTake t 8) = false ∧ pyStartswith t (pyTake s 8) = false) →
      is_trusted_session ts s = false) := by
  constructor
  · intro t ht _ _ hpre
    unfold is_trusted_session
    rw [List.any_eq_true]
    refine ⟨t, ht, ?_⟩
    have h1 : pyStartswith s (pyTake t 8) = true := by
      rw [← hpre]
      unfold pyStartswith pyTake
      rw [toList_mk, List.isPrefixOf_iff_prefix]
      exact List.take_prefix 8 s.toList
    simp [h1]
  · intro h
    unfold is_trusted_session
    rw [List.any_eq_false]
    intro t ht
    have ht2 := h t ht
    simp [ht2.1, ht2.2]

/-- C7 witness: a concrete id sharing an 8-character prefix with a trusted id
is trusted; an unrelated id is not. -/
theorem trusted_session_prefix_rule_witness :
    is_trusted_session ["abcdefgh-one"] "abcdefgh-two" = true ∧
    is_trusted_session ["abcdefgh-one"] "zzzzzzzzzz" = false := by
  constructor
  · exact (trusted_session_prefix_rule ["abcdefgh-one"] "abcdefgh-two").1 "abcdefgh-one"
      (List.mem_singleton.mpr rfl) (by decide) (by decide) (by decide)
  · exact (trusted_session_prefix_rule ["abcdefgh-one"] "zzzzzzzzzz").2 (by decide)

/-- C10: because the membership test compares `trusted.startswith(session_id[:8])`,
a session id shorter than 8 characters that is a prefix of any trusted id is
considered trusted; in particular the empty session id is trusted whenever the
trusted set is non-empty. -/
theorem short_session_prefix_trusted (ts : List String) (s : String) :
    (∀ t, t ∈ ts → s.length < 8 → pyStartswith t s = true → is_trusted_session ts s = true) ∧
    (ts ≠ [] → is_trusted_session ts "" = true) := by
  constructor
  · intro t ht hlen hpre
    unfold is_trusted_session
    rw [List.any_eq_true]
    refine ⟨t, ht, ?_⟩
    have htake : pyTake s 8 = s := by
      unfold pyTake
      have hl : s.toList.length ≤ 8 := le_of_lt hlen
      rw [List.take_of_length_le hl]
      rfl
    rw [htake, hpre]
    simp
  · intro hne
    unfold is_trusted_session
    rw [List.any_eq_true]
    match ts, hne with
    | t :: rest, _ =>
      refine ⟨t, List.mem_cons_self t rest, ?_⟩
      have h2 : pyStartswith t (pyTake "" 8) = true := by
        unfold pyStartswith pyTake
        have he : ("" : String).toList = [] := rfl
        rw [toList_mk, he, List.take_nil, List.isPrefixOf_iff_prefix]
        exact List.nil_prefix
      simp [h2]

/-- C10 witness: a 3-character prefix of a trusted id is itself trusted, and
the empty id is trusted while the trusted set is non-empty. -/
theorem short_session_prefix_trusted_witness :
    is_trusted_session ["abcdefgh-one"] "abc" = true ∧
    is_trusted_session ["abcdefgh-one"] "" = true := by
  constructor
  · exact (short_session_prefix_trusted ["abcdefgh-one"] "abc").1 "abcdefgh-one"
      (List.mem_singleton.mpr rfl) (by decide) (by decide)
  · exact (short_session_prefix_trusted ["abcdefgh-one"] "").2 (by decide)

/-! ## SmartAlertFilter (smart_alerts.py) -/

/-- An alert record; `alert.get('title','')` etc. are the fields, with
`details` a string-valued dict. -/
structure Alert where
  title : String
  category : String
  details : List (String × String)
  description : String
deriving DecidableEq

/-- The learned suppression state (`learned_patterns.json`). -/
structure LearnedPatterns where
  dismissed_patterns : List String
  known_safe_processes : List String
  known_safe_paths : List String
deriving DecidableEq

/-- `SmartAlertFilter.benign_patterns` (built-in, smart_alerts.py lines 16-45). -/
def benign_patterns : List String :=
  ["package-lock.json", "package.json", "yarn.lock", "Cargo.lock", "Gemfile.lock",
   "poetry.lock", "pnpm-lock.yaml", ".git/", "node_modules/", "__pycache__/",
   ".pyc", ".npm/", ".cache/", ".DS_Store", ".Trash", "Library/Caches",
   "Library/Preferences", "/var/folders/", "/tmp/", ".vscode/", ".idea/",
   "*.swp", ".eslintcache"]

/-- `SmartAlertFilter.should_suppress` (smart_alerts.py lines 73-112): the
first matching rule returns `(True, reason)`; the `behavioral_anomaly`
category is suppressed unconditionally at the end. -/
def should_suppress (learned : LearnedPatterns) (alert : Alert) : Bool × String :=
  match benign_patterns.find? (fun p => pyContains alert.title p
      || pyContains alert.description p || pyContains (pyDictRepr alert.details) p) with
  | some p => (true, "Matches benign pattern: " ++ p)
  | none =>
    match learned.dismissed_patterns.find? (fun d => pyContains alert.title d
        || pyContains alert.description d) with
    | some d => (true, "Previously dismissed: " ++ d)
    | none =>
      if learned.known_safe_processes.contains
          (dictGet alert.details "process" (dictGet alert.details "tool_name" "")) then
        (true, "Known safe process: "
          ++ dictGet alert.details "process" (dictGet alert.details "tool_name" ""))
      else
        match learned.known_safe_paths.find? (fun sp =>
            pyContains (dictGet alert.details "path" (dictGet alert.details "file" "")) sp) with
        | some sp => (true, "Known safe path: " ++ sp)
        | none =>
          if alert.category = "behavioral_anomaly" then
            (true, "Suppressed rate-based alert: " ++ dictGet alert.details "activity_type" "")
          else
            (false, "")

/-- C9: every alert whose category is `behavioral_anomaly` is suppressed
(first component `true`) regardless of its other content, and when no earlier
rule matches, the result is precisely the category rule's `(True, reason)`
pair. -/
theorem behavioral_anomaly_always_suppressed (learned : LearnedPatterns) (alert : Alert)
    (hcat : alert.category = "behavioral_anomaly") :
    (should_suppress learned alert).1 = true ∧
    (benign_patterns.find? (fun p => pyContains alert.title p
        || pyContains alert.description p || pyContains (pyDictRepr alert.details) p) = none →
     learned.dismissed_patterns.find? (fun d => pyContains alert.title d
        || pyContains alert.description d) = none →
     learned.known_safe_processes.contains
        (dictGet alert.details "process" (dictGet alert.details "tool_name" "")) = false →
     learned.known_safe_paths.find? (fun sp =>
        pyContains (dictGet alert.details "path" (dictGet alert.details "file" "")) sp) = none →
     should_suppress learned alert =
       (true, "Suppressed rate-based alert: " ++ dictGet alert.details "activity_type" "")) := by
  constructor
  · unfold should_suppress
    repeat' split
    all_goals simp_all
  · intro h1 h2 h3 h4
    unfold should_suppress
    rw [h1, h2, h3, h4, hcat]
    simp

/-- C9 witness: a concrete behavioral-anomaly alert is suppressed with the
category rule's reason. -/
theorem behavioral_anomaly_always_suppressed_witness :
    should_suppress ⟨[], [], []⟩
        ⟨"Unusual EXEC rate", "behavioral_anomaly", [("activity_type", "EXEC")],
         "Rate spike detected"⟩ =
      (true, "Suppressed rate-based alert: "
        ++ dictGet [("activity_type", "EXEC")] "activity_type" "") :=
  (behavioral_anomaly_always_suppressed ⟨[], [], []⟩
      ⟨"Unusual EXEC rate", "behavioral_anomaly", [("activity_type", "EXEC")],
       "Rate spike detected"⟩ rfl).2
    (by decide) (by decide) (by decide) (by decide)

/-! ## BehaviorBaseline (baseline.py) -/

/-- One persisted hourly window (baseline.py `_rotate_window`'s snapshot). -/
structure WindowData where
  timestamp : String
  hour : Nat
  counts : List (String × Nat)
  commands : List (String × Nat)
  directories : List (String × Nat)
  network : List (String × Nat)
deriving DecidableEq

/-- The mutable current window's four counter dicts. -/
structure CurrentWindow where
  counts : List (String × Nat)
  commands : List (String × Nat)
  directories : List (String × Nat)
  network : List (String × Nat)
deriving DecidableEq

/-- The persisted baseline state. -/
structure Baseline where
  windows : List WindowData
  learned : Bool
  min_windows : Nat
deriving DecidableEq

/-- `BehaviorBaseline._default_baseline`. -/
def default_baseline : Baseline :=
  { windows := [], learned := false, min_windows := 24 }

/-- The result record of `check_anomaly`. -/
structure AnomalyResult where
  is_anomaly : Bool
  reasons : List String
  severity : String
deriving DecidableEq

/-- The historical per-window counts of one activity type
(`[w['counts'].get(activity_type, 0) for w in windows]`). -/
def historicalCounts (windows : List WindowData) (activity_type : String) : List Nat :=
  windows.map (fun w => dictGetNat w.counts activity_type 0)

/-- `statistics.mean(historical) if historical else 0`, as an exact rational. -/
def histMean (windows : List WindowData) (activity_type : String) : Rat :=
  if (historicalCounts windows activity_type).isEmpty then 0
  else ((historicalCounts windows activity_type).sum : Rat)
    / ((historicalCounts windows activity_type).length : Rat)

/-- Python float formatting `.0f`: round half to even. -/
def formatF0 (q : Rat) : Int :=
  if q - (⌊q⌋ : Rat) > 1/2 then ⌊q⌋ + 1
  else if q - (⌊q⌋ : Rat) < 1/2 then ⌊q⌋
  else if ⌊q⌋ % 2 = 0 then ⌊q⌋ else ⌊q⌋ + 1

/-- `BehaviorBaseline._check_rate_anomaly` (baseline.py lines 174-193). -/
def check_rate_anomaly (cwCounts : List (String × Nat)) (activity_type : String)
    (windows : List WindowData) : Option String :=
  let historical := historicalCounts windows activity_type
  if historical.isEmpty || historical.all (fun h => h == 0) then none
  else
    let current_count := dictGetNat cwCounts activity_type 0
    let mean := histMean windows activity_type
    if mean = 0 then
      if current_count > 10 then
        some ("Unusual " ++ activity_type ++ " activity: " ++ toString current_count
          ++ " ops (normally none)")
      else none
    else if (current_count : Rat) > mean * 3 ∧ current_count > 5 then
      some ("High " ++ activity_type ++ " rate: " ++ toString current_count
        ++ " ops (normal: ~" ++ toString (formatF0 mean) ++ ")")
    else none

/-- The sensitive-command set of `_check_command_anomaly`. -/
def sensitive_commands : List String :=
  ["curl", "wget", "nc", "ncat", "netcat", "ssh", "scp",
   "base64", "xxd", "dd", "tar", "zip", "gpg",
   "chmod", "chown", "sudo", "su", "passwd",
   "crontab", "systemctl", "launchctl"]

/-- The union of the comparison windows' command keys. -/
def windowCommandKeys (windows : List WindowData) : List String :=
  windows.foldl (fun acc w => acc ++ w.commands.map Prod.fst) []

/-- `BehaviorBaseline._check_command_anomaly` (baseline.py lines 195-217).
`split()[0]` on a whitespace-only command raises IndexError. -/
def check_command_anomaly (details : List (String × String)) (windows : List WindowData) :
    Except PyErr (Option String) :=
  if dictGet details "command" "" = "" then .ok none
  else
    match (pySplit (dictGet details "command" "")).head? with
    | none => .error .indexError
    | some cmd =>
      if sensitive_commands.contains cmd && !(windowCommandKeys windows).contains cmd then
        .ok (some ("First-time sensitive command: " ++ cmd))
      else .ok none

/-- The sensitive-path substrings of `_check_directory_anomaly`. -/
def sensitive_patterns : List String :=
  [".ssh", ".aws", ".gnupg", ".config/gcloud",
   "Cookies", "Login Data", "Keychain",
   "/etc/passwd", "/etc/shadow", "/etc/sudoers"]

/-- The union of the comparison windows' directory keys. -/
def windowDirectoryKeys (windows : List WindowData) : List String :=
  windows.foldl (fun acc w => acc ++ w.directories.map Prod.fst) []

/-- Model of `str(pathlib.Path(p).parent)` for slash-normalized paths. -/
def pyPathParent (p : String) : String :=
  let cs := p.toList
  let stripped := (cs.reverse.dropWhile (fun c => c = '/')).reverse
  if stripped.isEmpty then (if cs.isEmpty then "." else "/")
  else
    let dir := (stripped.reverse.dropWhile (fun c => c ≠ '/')).reverse
    let dir2 := (dir.reverse.dropWhile (fun c => c = '/')).reverse
    if dir.isEmpty then "." else if dir2.isEmpty then "/" else String.mk dir2

/-- `BehaviorBaseline._check_directory_anomaly` (baseline.py lines 219-244). -/
def check_directory_anomaly (details : List (String × String)) (windows : List WindowData) :
    Option String :=
  let path := dictGet details "path" ""
  if path = "" then none
  else
    match sensitive_patterns.find? (fun pat => pyContains path pat
        && !(windowDirectoryKeys windows).contains (pyPathParent path)) with
    | some _ => some ("First-time access to sensitive path: " ++ path)
    | none => none

/-- The localhost/LAN markers skipped by `_check_network_anomaly`. -/
def lanMarkers : List String := ["127.0.0.1", "::1", "192.168.", "10.0.", "172.16."]

/-- The union of the comparison windows' network-destination keys. -/
def windowNetworkKeys (windows : List WindowData) : List String :=
  windows.foldl (fun acc w => acc ++ w.network.map Prod.fst) []

/-- `BehaviorBaseline._check_network_anomaly` (baseline.py lines 246-263). -/
def check_network_anomaly (details : List (String × String)) (windows : List WindowData) :
    Option String :=
  let remote := dictGet details "remote" ""
  if remote = "" || remote = "-" then none
  else if !(windowNetworkKeys windows).contains remote
      && !(lanMarkers.any (fun x => pyContains remote x)) then
    some ("New network destination: " ++ remote)
  else none

/-- `BehaviorBaseline.check_anomaly` (baseline.py lines 128-172): guard on
`learned`, select comparison windows (same hour-of-day, else last 24), run the
four sub-checks and union their findings. -/
def check_anomaly (b : Baseline) (cwCounts : List (String × Nat)) (current_hour : Nat)
    (activity_type : String) (details : List (String × String)) :
    Except PyErr (Option AnomalyResult) := do
  if !b.learned then return none
  let similar0 := b.windows.filter (fun w => w.hour == current_hour)
  let similar := if similar0.length < 3 then lastN b.windows 24 else similar0
  let a1 : List String :=
    match check_rate_anomaly cwCounts activity_type similar with
    | some r => [r]
    | none => []
  let a2 : List String ←
    if activity_type = "EXEC" then do
      match ← check_command_anomaly details similar with
      | some r => pure [r]
      | none => pure []
    else pure []
  let a3 : List String :=
    if activity_type = "READ" ∨ activity_type = "WRITE" ∨ activity_type = "EDIT" then
      match check_directory_anomaly details similar with
      | some r => [r]
      | none => []
    else []
  let a4 : List String :=
    if activity_type = "NETWORK" then
      match check_network_anomaly details similar with
      | some r => [r]
      | none => []
    else []
  let anomalies := a1 ++ a2 ++ a3 ++ a4
  if anomalies.isEmpty then return none
  return some ⟨true, anomalies, if anomalies.length > 1 then "high" else "medium"⟩

/-- The snapshot `_rotate_window` appends to history. -/
def windowSnapshot (w : CurrentWindow) (ts : String) (hour : Nat) : WindowData :=
  ⟨ts, hour, w.counts, w.commands, w.directories, w.network⟩

/-- `windows[-168:]` when over the 7-day cap. -/
def trimWindows (l : List WindowData) : List WindowData :=
  if l.length > 168 then lastN l 168 else l

/-- `BehaviorBaseline._rotate_window` (baseline.py lines 101-126): `none`
models an empty (falsy) current window, which is not appended. -/
def rotate_window (b : Baseline) (cw : Option CurrentWindow) (ts : String) (hour : Nat) :
    Baseline :=
  match cw with
  | none => b
  | some w =>
    { windows := trimWindows (b.windows ++ [windowSnapshot w ts hour]),
      learned := if (trimWindows (b.windows ++ [windowSnapshot w ts hour])).length ≥ b.min_windows
                 then true else b.learned,
      min_windows := b.min_windows }

/-- Rotating a sequence of non-empty windows into the baseline. -/
def rotateMany (b : Baseline) (ws : List (CurrentWindow × String × Nat)) : Baseline :=
  ws.foldl (fun acc x => rotate_window acc (some x.1) x.2.1 x.2.2) b

theorem trimWindows_length (l : List WindowData) :
    (trimWindows l).length = if l.length > 168 then 168 else l.length := by
  unfold trimWindows lastN
  split
  · simp only [List.length_drop]
    omega
  · rfl

theorem rotate_window_min_windows (b : Baseline) (cw : Option CurrentWindow)
    (ts : String) (h : Nat) : (rotate_window b cw ts h).min_windows = b.min_windows := by
  unfold rotate_window
  cases cw <;> rfl

theorem rotate_window_length (b : Baseline) (w : CurrentWindow) (ts : String) (h : Nat)
    (hle : b.windows.length + 1 ≤ 168) :
    (rotate_window b (some w) ts h).windows.length = b.windows.length + 1 := by
  unfold rotate_window
  simp only [trimWindows_length, List.length_append, List.length_singleton]
  rw [if_neg (by omega : ¬ b.windows.length + 1 > 168)]

theorem rotate_window_learned_char (b : Baseline) (w : CurrentWindow) (ts : String) (h : Nat) :
    (rotate_window b (some w) ts h).learned =
      (decide ((if b.windows.length + 1 > 168 then 168 else b.windows.length + 1)
          ≥ b.min_windows) || b.learned) := by
  unfold rotate_window
  simp only [trimWindows_length, List.length_append, List.length_singleton]
  split
  · simp_all
  · simp_all

theorem rotateMany_learned (ws : List (CurrentWindow × String × Nat)) :
    ∀ b : Baseline, b.min_windows = 24 → ws ≠ [] →
      b.windows.length + ws.length ≤ 168 → 24 ≤ b.windows.length + ws.length →
      (rotateMany b ws).learned = true := by
  induction ws with
  | nil =>
    intro b _ hne _ _
    exact absurd rfl hne
  | cons w rest ih =>
    intro b hmin _ hlen hge
    have hstep : rotateMany b (w :: rest) =
        rotateMany (rotate_window b (some w.1) w.2.1 w.2.2) rest := rfl
    have hle1 : b.windows.length + 1 ≤ 168 := by
      have := List.length_cons w rest
      omega
    cases rest with
    | nil =>
      rw [hstep]
      show (rotate_window b (some w.1) w.2.1 w.2.2).learned = true
      rw [rotate_window_learned_char, hmin]
      have hcnt : 24 ≤ b.windows.length + 1 := by
        simp only [List.length_cons, List.length_nil] at hge
        omega
      rw [if_neg (by omega : ¬ b.windows.length + 1 > 168)]
      have hdec : decide (b.windows.length + 1 ≥ 24) = true := decide_eq_true hcnt
      rw [hdec]
      rfl
    | cons w2 rest2 =>
      rw [hstep]
      apply ih
      · rw [rotate_window_min_windows, hmin]
      · exact List.cons_ne_nil w2 rest2
      · rw [rotate_window_length b w.1 w.2.1 w.2.2 hle1]
        simp only [List.length_cons] at hlen ⊢
        omega
      · rw [rotate_window_length b w.1 w.2.1 w.2.2 hle1]
        simp only [List.length_cons] at hge ⊢
        omega

/-- C8: while `learned` is false, `check_anomaly` returns nothing for every
activity type and details; rotating 24 non-empty windows into the default
baseline sets `learned`; and one rotation sets `learned` exactly when the
(trimmed) history length reaches `min_windows`. -/
theorem unlearned_silent_and_learning_threshold (b : Baseline)
    (cwCounts : List (String × Nat)) (hour : Nat) (ty : String)
    (details : List (String × String)) (ws : List (CurrentWindow × String × Nat)) :
    (b.learned = false → check_anomaly b cwCounts hour ty details = .ok none) ∧
    (ws.length = 24 → (rotateMany default_baseline ws).learned = true) ∧
    (∀ (b2 : Baseline) (w : CurrentWindow) (ts : String) (h : Nat),
      (rotate_window b2 (some w) ts h).learned =
        (decide ((if b2.windows.length + 1 > 168 then 168 else b2.windows.length + 1)
            ≥ b2.min_windows) || b2.learned)) := by
  refine ⟨?_, ?_, ?_⟩
  · intro hlearned
    unfold check_anomaly
    rw [hlearned]
    rfl
  · intro hlen
    apply rotateMany_learned ws default_baseline rfl
    · intro hnil
      rw [hnil] at hlen
      simp at hlen
    · show default_baseline.windows.length + ws.length ≤ 168
      rw [hlen]
      simp [default_baseline]
    · show 24 ≤ default_baseline.windows.length + ws.length
      rw [hlen]
      simp [default_baseline]
  · exact rotate_window_learned_char

/-- C8 witness: the default baseline is silent, and 24 rotated windows make
it learned. -/
theorem unlearned_silent_and_learning_threshold_witness :
    check_anomaly default_baseline [("EXEC", 50)] 3 "EXEC" [] = .ok none ∧
    (rotateMany default_baseline
      (List.replicate 24 (⟨[("EXEC", 1)], [], [], []⟩, "t", 3))).learned = true := by
  constructor
  · exact (unlearned_silent_and_learning_threshold default_baseline [("EXEC", 50)] 3 "EXEC" []
      (List.replicate 24 (⟨[("EXEC", 1)], [], [], []⟩, "t", 3))).1 rfl
  · exact (unlearned_silent_and_learning_threshold default_baseline [("EXEC", 50)] 3 "EXEC" []
      (List.replicate 24 (⟨[("EXEC", 1)], [], [], []⟩, "t", 3))).2.1 (by decide)

theorem histMean_pos (windows : List WindowData) (ty : String)
    (hne : historicalCounts windows ty ≠ [])
    (hnz : ¬ (historicalCounts windows ty).all (fun h => h == 0) = true) :
    0 < histMean windows ty := by
  have hx : ∃ x ∈ historicalCounts windows ty, x ≠ 0 := by
    by_contra hc
    push_neg at hc
    apply hnz
    rw [List.all_eq_true]
    intro x hxmem
    exact beq_iff_eq.mpr (hc x hxmem)
  obtain ⟨x, hmem, hx0⟩ := hx
  have hsum : 0 < (historicalCounts windows ty).sum := by
    have hle : x ≤ (historicalCounts windows ty).sum :=
      List.single_le_sum (fun y _ => Nat.zero_le y) x hmem
    omega
  unfold histMean
  rw [if_neg (by simp [List.isEmpty_iff, hne])]
  apply div_pos
  · exact_mod_cast hsum
  · have hlen : 0 < (historicalCounts windows ty).length := List.length_pos.mpr hne
    exact_mod_cast hlen

/-- C2 (amended): in the rate-anomaly sub-check, if every historical count of
the activity type over the comparison windows is 0 (historical mean 0), no
rate anomaly is flagged regardless of the current count (the `mean == 0`
branch is unreachable behind the all-zero early return); otherwise a rate
anomaly is flagged exactly when the current count exceeds 3 times the mean
and also exceeds 5. -/
theorem rate_anomaly_iff (cwCounts : List (String × Nat)) (ty : String)
    (windows : List WindowData) :
    (check_rate_anomaly cwCounts ty windows).isSome = true ↔
      (historicalCounts windows ty ≠ [] ∧
       ¬ (historicalCounts windows ty).all (fun h => h == 0) = true ∧
       (dictGetNat cwCounts ty 0 : Rat) > histMean windows ty * 3 ∧
       dictGetNat cwCounts ty 0 > 5) := by
  by_cases hemp : (historicalCounts windows ty).isEmpty = true
  · have hnone : check_rate_anomaly cwCounts ty windows = none := by
      simp only [check_rate_anomaly]
      rw [if_pos (Bool.or_eq_true _ _ |>.mpr (Or.inl hemp))]
    rw [hnone]
    constructor
    · intro h
      simp at h
    · intro h
      exact absurd (List.isEmpty_iff.mp hemp) h.1
  · by_cases hall : (historicalCounts windows ty).all (fun h => h == 0) = true
    · have hnone : check_rate_anomaly cwCounts ty windows = none := by
        simp only [check_rate_anomaly]
        rw [if_pos (Bool.or_eq_true _ _ |>.mpr (Or.inr hall))]
      rw [hnone]
      constructor
      · intro h
        simp at h
      · intro h
        exact absurd hall h.2.1
    · have hne : historicalCounts windows ty ≠ [] :=
        fun h => hemp (List.isEmpty_iff.mpr h)
      have hpos : 0 < histMean windows ty := histMean_pos windows ty hne hall
      have hguard : ((historicalCounts windows ty).isEmpty
          || (historicalCounts windows ty).all (fun h => h == 0)) = false := by
        rw [Bool.or_eq_false_iff]
        exact ⟨Bool.eq_false_iff.mpr hemp, Bool.eq_false_iff.mpr hall⟩
      simp only [check_rate_anomaly]
      rw [if_neg (by simp [hguard])]
      rw [if_neg (ne_of_gt hpos)]
      by_cases hcond : ((dictGetNat cwCounts ty 0 : Rat) > histMean windows ty * 3
          ∧ dictGetNat cwCounts ty 0 > 5)
      · rw [if_pos hcond]
        simp only [Option.isSome_some]
        constructor
        · intro _
          exact ⟨hne, hall, hcond.1, hcond.2⟩
        · intro _
          trivial
      · rw [if_neg hcond]
        constructor
        · intro h
          simp at h
        · intro h
          exact absurd ⟨h.2.2.1, h.2.2.2⟩ hcond

/-- 24 comparison windows in which the EXEC count is always absent (0). -/
def rateCexWindow : WindowData :=
  ⟨"2025-01-01T00:00:00", 10, [("READ", 5)], [], [], []⟩

/-- A learned baseline whose history is 24 copies of `rateCexWindow`. -/
def rateCexBaseline : Baseline :=
  ⟨List.replicate 24 rateCexWindow, true, 24⟩

instance {ε α : Type} [DecidableEq ε] [DecidableEq α] : DecidableEq (Except ε α) := fun a b =>
  match a, b with
  | .ok x, .ok y => if h : x = y then isTrue (by rw [h]) else isFalse (by simp [h])
  | .error x, .error y => if h : x = y then isTrue (by rw [h]) else isFalse (by simp [h])
  | .ok _, .error _ => isFalse (by simp)
  | .error _, .ok _ => isFalse (by simp)

/-- C2 counterexample: the historical mean EXEC count over the comparison
windows is 0 and the current count is 11 (> 10), so the claim predicts a rate
anomaly, but the sub-check returns nothing (the all-zero early return fires
before the `mean == 0` branch) and the whole `check_anomaly` call reports no
anomaly. -/
theorem rate_anomaly_mean_zero_counterexample :
    histMean (List.replicate 24 rateCexWindow) "EXEC" = 0 ∧
    dictGetNat [("EXEC", 11)] "EXEC" 0 = 11 ∧
    check_rate_anomaly [("EXEC", 11)] "EXEC" (List.replicate 24 rateCexWindow) = none ∧
    check_anomaly rateCexBaseline [("EXEC", 11)] 10 "EXEC" [("command", "ls logs")]
      = .ok none := by
  refine ⟨?_, by decide, by decide, by decide⟩
  unfold histMean
  rw [if_neg (by decide)]
  have hsum : (historicalCounts (List.replicate 24 rateCexWindow) "EXEC").sum = 0 := by decide
  rw [hsum]
  simp

/-! ## TrustEngine: context verification (trust.py lines 156-192) -/

/-- A parsed session message (`{'role': ..., 'content': ...}`). -/
structure Msg where
  role : String
  content : String
deriving DecidableEq

/-- The imperative-request regexes of `_check_user_request`; each is a literal
followed by `\s`. -/
def request_patterns : List String :=
  ["run", "execute", "install", "setup",
   "create", "build", "start", "download",
   "please", "can you", "could you", "would you"]

/-- The well-known tool names of the specific-match branch. -/
def tool_names : List String := ["curl", "wget", "npm", "pip", "git"]

/-- `re.search(p + '\s', content)` for a literal `p`. -/
def matchRequestPattern (p : String) (content : String) : Bool :=
  hasSubWS p.toList content.toList

/-- The loop of `_check_user_request` over `reversed(messages[-20:])`:
skip non-user messages; return true on an imperative request with ≥2
overlapping long tokens, or when the message mentions any well-known tool
name and the command mentions any well-known tool name. -/
def check_user_request_go (command_lower : String) (command_terms : List String) :
    List Msg → Bool
  | [] => false
  | msg :: rest =>
    if msg.role ≠ "user" then check_user_request_go command_lower command_terms rest
    else
      if request_patterns.any (fun p => matchRequestPattern p (pyLower msg.content)) ∧
          2 ≤ (command_terms.filter
            (fun t => (termSet (pyLower msg.content)).contains t)).length then true
      else if tool_names.any (fun t => pyContains (pyLower msg.content) t)
          && tool_names.any (fun t => pyContains command_lower t) then true
      else check_user_request_go command_lower command_terms rest

/-- `TrustEngine._check_user_request`. -/
def check_user_request (messages : List Msg) (command : String) : Bool :=
  check_user_request_go (pyLower command) (termSet (pyLower command))
    ((lastN messages 20).reverse)

theorem check_user_request_go_true (cl : String) (cts : List String) :
    ∀ l : List Msg, ∀ msg ∈ l, msg.role = "user" →
      tool_names.any (fun t => pyContains (pyLower msg.content) t) = true →
      tool_names.any (fun t => pyContains cl t) = true →
      check_user_request_go cl cts l = true := by
  intro l
  induction l with
  | nil =>
    intro msg h
    cases h
  | cons m rest ih =>
    intro msg hmem hrole hmsg hcmd
    unfold check_user_request_go
    by_cases hm : m.role ≠ "user"
    · rw [if_pos hm]
      cases hmem with
      | head => exact absurd hrole hm
      | tail _ hmemrest => exact ih msg hmemrest hrole hmsg hcmd
    · rw [if_neg hm]
      cases hmem with
      | head =>
        have hcond : (tool_names.any (fun t => pyContains (pyLower m.content) t)
            && tool_names.any (fun t => pyContains cl t)) = true := by
          rw [hmsg, hcmd]
          rfl
        split
        · rfl
        · simp [hcond]
      | tail _ hmemrest =>
        split
        · rfl
        · split
          · rfl
          · exact ih msg hmemrest hrole hmsg hcmd

/-- C3 (amended): the tool-name branch declares a command user-requested when
some user message among the last 20 mentions any of the well-known tool names
(curl, wget, npm, pip, git) and the command mentions any of them — the
matching tools need not be the same; the original claim's same-tool case is
the special case. -/
theorem tool_mention_any_pair (messages : List Msg) (command : String) (msg : Msg)
    (hmem : msg ∈ lastN messages 20) (hrole : msg.role = "user")
    (hmsg : tool_names.any (fun t => pyContains (pyLower msg.content) t) = true)
    (hcmd : tool_names.any (fun t => pyContains (pyLower command) t) = true) :
    check_user_request messages command = true := by
  unfold check_user_request
  apply check_user_request_go_true (pyLower command) (termSet (pyLower command))
    ((lastN messages 20).reverse) msg _ hrole hmsg hcmd
  rw [List.mem_reverse]
  exact hmem

/-- C3 witness: a user message mentioning `curl` marks a `wget` command as
user-requested. -/
theorem tool_mention_any_pair_witness :
    check_user_request [⟨"user", "use curl"⟩] "wget http://e.com" = true :=
  tool_mention_any_pair [⟨"user", "use curl"⟩] "wget http://e.com" ⟨"user", "use curl"⟩
    (by decide) rfl (by decide) (by decide)

/-- C3 counterexample: a user message mentioning only `curl` and a command
mentioning only `git` — the claim says the tool-name branch must not fire
(and the imperative branch cannot: the message matches no request pattern) —
yet `_check_user_request` returns true. -/
theorem tool_mention_counterexample :
    check_user_request [⟨"user", "curl"⟩] "git clone x" = true ∧
    request_patterns.any (fun p => matchRequestPattern p (pyLower "curl")) = false ∧
    pyContains (pyLower "git clone x") "curl" = false ∧
    pyContains (pyLower "curl") "git" = false ∧
    pyContains (pyLower "curl") "npm" = false ∧
    pyContains (pyLower "curl") "pip" = false ∧
    pyContains (pyLower "curl") "wget" = false ∧
    pyContains (pyLower "git clone x") "wget" = false ∧
    pyContains (pyLower "git clone x") "npm" = false ∧
    pyContains (pyLower "git clone x") "pip" = false := by
  decide

/-! ## TrustEngine: command risk analysis (trust.py lines 269-455) -/

/-- The outcome record of `analyze_command_risk`. -/
structure RiskProfile where
  risk_level : String
  risk_factors : List String
  capabilities : List String
  summary : String
  base_command : String
deriving DecidableEq

/-- `network_commands`: command ↦ (name, description). -/
def network_commands : List (String × String × String) :=
  [("telnet", "Network connection tool", "Can connect to remote hosts, unencrypted"),
   ("nc", "Netcat", "Powerful network tool, can create reverse shells"),
   ("ncat", "Ncat", "Enhanced netcat, can create reverse shells"),
   ("netcat", "Netcat", "Powerful network tool, can create reverse shells"),
   ("curl", "HTTP client", "Downloads content from URLs"),
   ("wget", "HTTP client", "Downloads files from URLs"),
   ("ssh", "Secure shell", "Remote access to systems"),
   ("scp", "Secure copy", "Transfers files over SSH"),
   ("rsync", "Remote sync", "Syncs files, can be remote"),
   ("ftp", "FTP client", "Unencrypted file transfer"),
   ("sftp", "SFTP client", "Encrypted file transfer"),
   ("nmap", "Network scanner", "Scans networks and ports"),
   ("ping", "Network ping", "Tests network connectivity"),
   ("traceroute", "Network trace", "Shows network path"),
   ("dig", "DNS lookup", "Queries DNS records"),
   ("nslookup", "DNS lookup", "Queries DNS records"),
   ("host", "DNS lookup", "Queries DNS records")]

/-- `system_commands`: command ↦ (name, description). -/
def system_commands : List (String × String × String) :=
  [("rm", "Remove files", "Deletes files/directories"),
   ("dd", "Disk dump", "Low-level disk operations"),
   ("mkfs", "Make filesystem", "Formats disks"),
   ("fdisk", "Disk partition", "Modifies partitions"),
   ("chmod", "Change permissions", "Modifies file permissions"),
   ("chown", "Change owner", "Modifies file ownership"),
   ("sudo", "Superuser do", "Runs with elevated privileges"),
   ("su", "Switch user", "Changes user context"),
   ("passwd", "Change password", "Modifies user passwords"),
   ("useradd", "Add user", "Creates new users"),
   ("userdel", "Delete user", "Removes users"),
   ("crontab", "Cron table", "Schedules recurring tasks"),
   ("systemctl", "System control", "Manages system services"),
   ("service", "Service manager", "Controls services"),
   ("kill", "Kill process", "Terminates processes"),
   ("pkill", "Kill by name", "Terminates processes by name")]

/-- `exec_commands`: command ↦ (name, description). -/
def exec_commands : List (String × String × String) :=
  [("bash", "Bash shell", "Command interpreter"),
   ("sh", "Shell", "Command interpreter"),
   ("zsh", "Zsh shell", "Command interpreter"),
   ("python", "Python", "Script interpreter"),
   ("python3", "Python 3", "Script interpreter"),
   ("perl", "Perl", "Script interpreter"),
   ("ruby", "Ruby", "Script interpreter"),
   ("node", "Node.js", "JavaScript runtime"),
   ("eval", "Eval", "Evaluates code"),
   ("exec", "Exec", "Executes commands"),
   ("source", "Source", "Executes script in current shell")]

/-- `safe_commands`: the read-only/benign allowlist with descriptions. -/
def safe_commands : List (String × String) :=
  [("whoami", "Shows current username"),
   ("id", "Shows user/group IDs"),
   ("pwd", "Shows current directory"),
   ("ls", "Lists directory contents"),
   ("cat", "Displays file contents"),
   ("head", "Shows first lines of file"),
   ("tail", "Shows last lines of file"),
   ("less", "File pager"),
   ("more", "File pager"),
   ("echo", "Prints text"),
   ("date", "Shows date/time"),
   ("cal", "Shows calendar"),
   ("uptime", "Shows system uptime"),
   ("uname", "Shows system info"),
   ("hostname", "Shows hostname"),
   ("env", "Shows environment variables"),
   ("printenv", "Shows environment variables"),
   ("which", "Shows command path"),
   ("whereis", "Locates command"),
   ("type", "Shows command type"),
   ("file", "Shows file type"),
   ("wc", "Word/line count"),
   ("sort", "Sorts text"),
   ("uniq", "Filters duplicates"),
   ("grep", "Searches text patterns"),
   ("find", "Finds files"),
   ("locate", "Locates files"),
   ("df", "Shows disk usage"),
   ("du", "Shows directory size"),
   ("free", "Shows memory usage"),
   ("top", "Shows processes"),
   ("htop", "Shows processes (interactive)"),
   ("ps", "Lists processes"),
   ("man", "Shows manual pages"),
   ("help", "Shows help"),
   ("history", "Shows command history"),
   ("clear", "Clears terminal"),
   ("true", "Returns success"),
   ("false", "Returns failure"),
   ("test", "Evaluates conditions"),
   ("cd", "Changes directory"),
   ("mkdir", "Creates directory"),
   ("touch", "Creates empty file"),
   ("cp", "Copies files"),
   ("mv", "Moves files")]

/-- `dangerous_patterns`: regex ↦ risk-factor reason (patterns kept verbatim
as data; matching goes through the `reSearch` oracle). -/
def dangerous_patterns : List (String × String) :=
  [("\\|.*sh\\b", "Pipe to shell - potential code execution"),
   (">\\s*/dev/", "Write to device - potential system damage"),
   (">\\s*/etc/", "Write to /etc - system config modification"),
   ("rm\\s+-rf\\s+/", "Recursive force delete from root"),
   (":\\(\\)\\\x7b.*\\\x7d", "Fork bomb pattern"),
   ("base64\\s+-d", "Base64 decode - potential obfuscation"),
   ("eval\\s*\\(", "Eval with expression - code execution"),
   ("/dev/tcp/", "Bash TCP redirection"),
   ("/dev/udp/", "Bash UDP redirection")]

/-- Capability-table lookup (`base_cmd in table` plus `table[base_cmd]`). -/
def lookupCmd (d : List (String × String × String)) (k : String) :
    Option (String × String) :=
  match d.find? (fun kv => kv.1 = k) with
  | some kv => some kv.2
  | none => none

/-- `parts[0] if parts else ''` over `command.lower().strip().split()`. -/
def base_command (command : String) : String :=
  ((pySplit (pyStrip (pyLower command))).head?).getD ""

/-- `TrustEngine.analyze_command_risk` (trust.py lines 269-455). -/
def analyze_command_risk (reSearch : String → String → Bool) (command : String) :
    RiskProfile :=
  let command_lower := pyStrip (pyLower command)
  let base_cmd := base_command command
  match lookupStr safe_commands base_cmd with
  | some desc =>
    { risk_level := "minimal", risk_factors := [],
      capabilities := ["Safe: " ++ desc], summary := desc, base_command := base_cmd }
  | none =>
    let capNet : List String := match lookupCmd network_commands base_cmd with
      | some nd => ["Network: " ++ nd.1 ++ " - " ++ nd.2]
      | none => []
    let rfNet : List String :=
      if (lookupCmd network_commands base_cmd).isSome then ["Network capability"] else []
    let capSys : List String := match lookupCmd system_commands base_cmd with
      | some nd => ["System: " ++ nd.1 ++ " - " ++ nd.2]
      | none => []
    let rfSys : List String :=
      if (lookupCmd system_commands base_cmd).isSome then ["System modification capability"]
      else []
    let capExec : List String := match lookupCmd exec_commands base_cmd with
      | some nd => ["Execution: " ++ nd.1 ++ " - " ++ nd.2]
      | none => []
    let capabilities := capNet ++ capSys ++ capExec
    let patternReasons := dangerous_patterns.filterMap
      (fun pr => if reSearch pr.1 command_lower then some pr.2 else none)
    let risk_factors := rfNet ++ rfSys ++ patternReasons
    let risk_level :=
      if risk_factors.any (fun f => pyContains (pyLower f) "shell"
          || pyContains (pyLower f) "fork bomb" || pyContains (pyLower f) "root") then "high"
      else if 2 ≤ risk_factors.length
          || pyContains (pyListRepr risk_factors) "System modification" then "medium"
      else if !risk_factors.isEmpty then "low"
      else if !capabilities.isEmpty then "low"
      else "minimal"
    let summary :=
      if capabilities.isEmpty && risk_factors.isEmpty then
        "Command '" ++ base_cmd ++ "' - no specific risk indicators found"
      else if !capabilities.isEmpty && risk_factors.isEmpty then
        capabilities.headD ""
      else if !risk_factors.isEmpty then
        "Risk factors: " ++ String.intercalate ", " (risk_factors.take 3)
      else "Unable to determine risk profile"
    { risk_level := risk_level, risk_factors := risk_factors,
      capabilities := capabilities, summary := summary, base_command := base_cmd }

/-- C4: any command whose first whitespace token (lowercased) is in the
safe-command allowlist short-circuits to the safe-branch record: risk level
`minimal`, no risk factors, independent of the rest of the command and of the
dangerous-pattern matcher. -/
theorem safe_command_short_circuit (reSearch : String → String → Bool) (command : String)
    (desc : String) (hsafe : lookupStr safe_commands (base_command command) = some desc) :
    analyze_command_risk reSearch command =
      { risk_level := "minimal", risk_factors := [],
        capabilities := ["Safe: " ++ desc], summary := desc,
        base_command := base_command command } := by
  simp only [analyze_command_risk]
  rw [hsafe]

/-- C4 witness: `ls -la` classifies as `minimal` with no risk factors, for an
arbitrary concrete pattern oracle. -/
theorem safe_command_short_circuit_witness :
    analyze_command_risk (fun _ _ => true) "ls -la" =
      { risk_level := "minimal", risk_factors := [],
        capabilities := ["Safe: " ++ "Lists directory contents"],
        summary := "Lists directory contents",
        base_command := base_command "ls -la" } :=
  safe_command_short_circuit (fun _ _ => true) "ls -la" "Lists directory contents" (by decide)

/-! ## TrustEngine: threat intel and full evaluation (trust.py lines 194-267, 457-524) -/

/-- A threat-intel match record. -/
structure ThreatInfo where
  pattern : String
  reason : String
  severity : String
deriving DecidableEq

/-- `builtin_threats` (trust.py lines 462-503), patterns verbatim. -/
def builtin_threats : List ThreatInfo :=
  [⟨"pastebin\\.com/raw/", "Pastebin raw URL (common malware host)", "high"⟩,
   ⟨"raw\\.githubusercontent\\.com.*\\.sh\\s*\\|\\s*(?:ba)?sh",
     "GitHub raw script piped to shell", "medium"⟩,
   ⟨"(?:[\\d]\x7b1,3\x7d\\.)\x7b3\x7d[\\d]\x7b1,3\x7d:\\d\x7b4,5\x7d",
     "Direct IP:port connection (potential C2)", "high"⟩,
   ⟨"nc\\s+-[a-z]*e|ncat.*-e|netcat.*-e", "Netcat reverse shell", "critical"⟩,
   ⟨"/dev/tcp/|/dev/udp/", "Bash /dev/tcp socket (reverse shell)", "critical"⟩,
   ⟨"mkfifo.*/tmp/.*\\|.*nc", "Named pipe reverse shell", "critical"⟩,
   ⟨"python.*-c.*socket.*connect", "Python reverse shell", "critical"⟩,
   ⟨"base64\\s+-d.*\\|\\s*(?:ba)?sh", "Base64 decoded payload executed", "critical"⟩]

/-- The engine's custom threat-intel store (`threat-intel.json`):
pattern ↦ (reason, severity), plus blocked IPs and domains. -/
structure ThreatIntel where
  patterns : List (String × String × String)
  blocked_ips : List String
  blocked_domains : List String
deriving DecidableEq

/-- `TrustEngine.check_threat_intel` (trust.py lines 457-524): built-in
patterns, then custom patterns, then blocked IPs (raw substring), then
blocked domains (case-insensitive substring); first match wins. -/
def check_threat_intel (reSearch : String → String → Bool) (ti : ThreatIntel)
    (text : String) : Option ThreatInfo :=
  match builtin_threats.find? (fun t => reSearch t.pattern (pyLower text)) with
  | some t => some t
  | none =>
    match ti.patterns.find? (fun p => reSearch p.1 (pyLower text)) with
    | some p => some ⟨p.1, p.2.1, p.2.2⟩
    | none =>
      match ti.blocked_ips.find? (fun ip => pyContains text ip) with
      | some ip => some ⟨ip, "Blocked IP address", "high"⟩
      | none =>
        match ti.blocked_domains.find? (fun d => pyContains (pyLower text) (pyLower d)) with
        | some d => some ⟨d, "Blocked domain", "high"⟩
        | none => none

/-- The trust engine's in-memory state relevant to `evaluate_command`. -/
structure TrustEngineState where
  trusted_sessions : List String
  threat_intel : ThreatIntel
deriving DecidableEq

/-- The result record of `analyze_context`. -/
structure ContextResult where
  trust_level : String
  user_requested : Bool
  context_messages : List Msg
  reasoning : String
deriving DecidableEq

/-- `TrustEngine.analyze_context` (trust.py lines 91-154), with the session
file's existence check and JSONL parsing abstracted to the extracted message
list. -/
def analyze_context (messages : List Msg) (command : String) : ContextResult :=
  if check_user_request messages command then
    ⟨"verified", true, lastN messages 10, "User message found requesting this action"⟩
  else
    ⟨"unverified", false, lastN messages 10, "No clear user request found for this action"⟩

/-- The result record of `evaluate_command`. -/
structure TrustResult where
  trust_level : String
  is_trusted_session : Bool
  user_requested : Bool
  threat_match : Option ThreatInfo
  recommendation : String
  risk_analysis : RiskProfile
deriving DecidableEq

/-- `TrustEngine.evaluate_command` (trust.py lines 194-267).  `session_id`
is falsy when `none` or empty; `session_file = some msgs` models a provided,
readable session file whose parsed messages are `msgs`. -/
def evaluate_command (reSearch : String → String → Bool) (engine : TrustEngineState)
    (command : String) (session_id : Option String) (session_file : Option (List Msg)) :
    TrustResult :=
  let is_ts := match session_id with
    | some sid => if sid = "" then false else is_trusted_session engine.trusted_sessions sid
    | none => false
  let risk_analysis := analyze_command_risk reSearch command
  match check_threat_intel reSearch engine.threat_intel command with
  | some thr =>
    { trust_level := "malicious", is_trusted_session := is_ts, user_requested := false,
      threat_match := some thr,
      recommendation := "BLOCK: Matches threat intel - " ++ thr.reason,
      risk_analysis := risk_analysis }
  | none =>
    match session_file with
    | some messages =>
      let ur := (analyze_context messages command).user_requested
      if is_ts && ur then
        ⟨"trusted", is_ts, ur, none, "ALLOW: Trusted session, user requested", risk_analysis⟩
      else if is_ts then
        ⟨"verified", is_ts, ur, none,
          "ALLOW with logging: Trusted session, action not explicitly requested",
          risk_analysis⟩
      else if ur then
        ⟨"verified", is_ts, ur, none, "ALLOW: User requested this action", risk_analysis⟩
      else
        ⟨"suspicious", is_ts, ur, none, "REVIEW: No trusted session or user request",
          risk_analysis⟩
    | none =>
      if risk_analysis.risk_level = "high" then
        ⟨"suspicious", is_ts, false, none, "REVIEW: " ++ risk_analysis.summary, risk_analysis⟩
      else if risk_analysis.risk_level = "medium" then
        ⟨"unverified", is_ts, false, none, "CAUTION: " ++ risk_analysis.summary, risk_analysis⟩
      else if risk_analysis.risk_level = "low" then
        ⟨"verified", is_ts, false, none, "LIKELY SAFE: " ++ risk_analysis.summary,
          risk_analysis⟩
      else if risk_analysis.risk_level = "minimal" then
        ⟨"trusted", is_ts, false, none, "SAFE: " ++ risk_analysis.summary, risk_analysis⟩
      else
        ⟨"unverified", is_ts, false, none, "UNKNOWN: " ++ risk_analysis.summary,
          risk_analysis⟩

theorem pyStartswith_block (s : String) :
    pyStartswith ("BLOCK: Matches threat intel - " ++ s) "BLOCK" = true := by
  unfold pyStartswith
  rw [List.isPrefixOf_iff_prefix]
  have h1 : ("BLOCK: Matches threat intel - " ++ s).toList
      = "BLOCK".toList ++ (": Matches threat intel - ".toList ++ s.toList) := by
    have h2 : ("BLOCK: Matches threat intel - " ++ s).toList
        = "BLOCK: Matches threat intel - ".toList ++ s.toList := rfl
    have h3 : ("BLOCK: Matches threat intel - ").toList
        = "BLOCK".toList ++ ": Matches threat intel - ".toList := by decide
    rw [h2, h3, List.append_assoc]
  rw [h1]
  exact List.prefix_append _ _

/-- C1: whenever `check_threat_intel` finds a match for the command,
`evaluate_command` returns `trust_level = malicious` with a recommendation
beginning `BLOCK`, carries the match, and returns before any context
analysis (`user_requested` stays false) — for every session id, every
session file, every engine state and every pattern oracle. -/
theorem threat_match_forces_block (reSearch : String → String → Bool)
    (engine : TrustEngineState) (command : String) (session_id : Option String)
    (session_file : Option (List Msg)) (thr : ThreatInfo)
    (h : check_threat_intel reSearch engine.threat_intel command = some thr) :
    (evaluate_command reSearch engine command session_id session_file).trust_level
        = "malicious" ∧
    pyStartswith
        (evaluate_command reSearch engine command session_id session_file).recommendation
        "BLOCK" = true ∧
    (evaluate_command reSearch engine command session_id session_file).threat_match
        = some thr ∧
    (evaluate_command reSearch engine command session_id session_file).user_requested
        = false := by
  have heval : evaluate_command reSearch engine command session_id session_file =
      { trust_level := "malicious",
        is_trusted_session := match session_id with
          | some sid => if sid = "" then false
              else is_trusted_session engine.trusted_sessions sid
          | none => false,
        user_requested := false,
        threat_match := some thr,
        recommendation := "BLOCK: Matches threat intel - " ++ thr.reason,
        risk_analysis := analyze_command_risk reSearch command } := by
    simp only [evaluate_command]
    rw [h]
  rw [heval]
  exact ⟨rfl, pyStartswith_block thr.reason, rfl, rfl⟩

/-- A store with one blocked IP, for the C1 witness. -/
def c1Engine : TrustEngineState :=
  ⟨[], ⟨[], ["1.2.3.4"], []⟩⟩

/-- C1 witness: a command containing a blocked IP is blocked as malicious
even alongside a session id and a session file. -/
theorem threat_match_forces_block_witness :
    (evaluate_command (fun _ _ => false) c1Engine "curl http://1.2.3.4/x" (some "sess-1")
        (some [⟨"user", "please run curl"⟩])).trust_level = "malicious" ∧
    pyStartswith (evaluate_command (fun _ _ => false) c1Engine "curl http://1.2.3.4/x"
        (some "sess-1") (some [⟨"user", "please run curl"⟩])).recommendation "BLOCK" = true ∧
    (evaluate_command (fun _ _ => false) c1Engine "curl http://1.2.3.4/x" (some "sess-1")
        (some [⟨"user", "please run curl"⟩])).threat_match
      = some ⟨"1.2.3.4", "Blocked IP address", "high"⟩ ∧
    (evaluate_command (fun _ _ => false) c1Engine "curl http://1.2.3.4/x" (some "sess-1")
        (some [⟨"user", "please run curl"⟩])).user_requested = false :=
  threat_match_forces_block (fun _ _ => false) c1Engine "curl http://1.2.3.4/x"
    (some "sess-1") (some [⟨"user", "please run curl"⟩])
    ⟨"1.2.3.4", "Blocked IP address", "high"⟩ (by decide)

/-! ## BaselineEncryption (crypto.py) -/

/-- Byte strings as lists of byte values. -/
abbrev Bytes := List Nat

/-- Stand-in for a JSON-serializable dict; serialization is abstracted in
`CryptoPrims`. -/
abbrev JsonDict := List (String × String)

/-- The external primitives used by `encrypt`/`decrypt`: SHA-256, the AEAD
(AES-256-GCM via the `cryptography` library), `json.dumps`/`json.loads` and
base64.  `aeadOpen`/`jsonLoads`/`b64decode` return `none` where the library
raises (the exception is caught inside `decrypt`). -/
structure CryptoPrims where
  sha256 : Bytes → Bytes
  aeadSeal : Bytes → Bytes → Bytes → Bytes
  aeadOpen : Bytes → Bytes → Bytes → Option Bytes
  jsonDumps : JsonDict → Bytes
  jsonLoads : Bytes → Option JsonDict
  b64encode : Bytes → String
  b64decode : String → Option Bytes

/-- The four ASCII bytes of the fallback marker `b'HMAC'`. -/
def hmacMagic : Bytes := [72, 77, 65, 67]

/-- `BaselineEncryption`'s runtime state: config `enabled` flag and the
in-memory derived key (present only while unlocked). -/
structure EncState where
  enabled : Bool
  derived_key : Option Bytes

/-- `BaselineEncryption.encrypt` (crypto.py lines 135-155).  `has_crypto`
models `HAS_CRYPTO`; since `'USE_PYCRYPTO' in dir()` is evaluated in the
method's local scope it is always false, so the AESGCM branch is the one
taken whenever an AEAD library is available.  The guard `not self._derived_key`
is true for a missing or empty key. -/
def encrypt (p : CryptoPrims) (has_crypto : Bool) (st : EncState) (data : JsonDict)
    (nonce : Bytes) : Except PyErr String :=
  match st.derived_key with
  | none => .error (.runtimeError "Encryption not unlocked")
  | some key =>
    if key = [] then .error (.runtimeError "Encryption not unlocked")
    else
      if !has_crypto then
        .ok (p.b64encode (hmacMagic ++ p.sha256 (key ++ p.jsonDumps data) ++ p.jsonDumps data))
      else
        .ok (p.b64encode (nonce ++ p.aeadSeal key nonce (p.jsonDumps data)))

/-- `BaselineEncryption.decrypt` (crypto.py lines 157-192).  The whole body
after the locked-state guard sits in a `try` whose handler returns `None`, so
every primitive failure maps to `none`. -/
def decrypt (p : CryptoPrims) (has_crypto : Bool) (st : EncState) (encrypted : String) :
    Except PyErr (Option JsonDict) :=
  match st.derived_key with
  | none => .error (.runtimeError "Encryption not unlocked")
  | some key =>
    if key = [] then .error (.runtimeError "Encryption not unlocked")
    else
      .ok (match p.b64decode encrypted with
        | none => none
        | some raw =>
          if raw.take 4 = hmacMagic then
            if (raw.drop 4).take 32 ≠ p.sha256 (key ++ raw.drop 36) then none
            else p.jsonLoads (raw.drop 36)
          else if !has_crypto then none
          else
            match p.aeadOpen key (raw.take 12) (raw.drop 12) with
            | none => none
            | some plaintext => p.jsonLoads plaintext)

theorem take_append_of_le {α : Type} (l₁ l₂ : List α) (n : Nat) (h : n ≤ l₁.length) :
    (l₁ ++ l₂).take n = l₁.take n := by
  rw [List.take_append_eq_append_take, Nat.sub_eq_zero_of_le h]
  simp

/-- C6: while unlocked, `decrypt` is total — every input yields `.ok` (no
exception escapes the `try`) — and any blob rejected at some step (invalid
base64, HMAC-format MAC mismatch, AEAD authentication failure on tampered,
truncated, corrupted or wrong-key ciphertext) yields `.ok none`. -/
theorem decrypt_fail_closed (p : CryptoPrims) (hc : Bool) (st : EncState)
    (blob : String) (key : Bytes) (hkey : st.derived_key = some key) (hne : key ≠ []) :
    (∃ r : Option JsonDict, decrypt p hc st blob = .ok r) ∧
    (p.b64decode blob = none → decrypt p hc st blob = .ok none) ∧
    (∀ raw, p.b64decode blob = some raw → raw.take 4 = hmacMagic →
      (raw.drop 4).take 32 ≠ p.sha256 (key ++ raw.drop 36) →
      decrypt p hc st blob = .ok none) ∧
    (∀ raw, p.b64decode blob = some raw → raw.take 4 ≠ hmacMagic → hc = true →
      p.aeadOpen key (raw.take 12) (raw.drop 12) = none →
      decrypt p hc st blob = .ok none) := by
  refine ⟨?_, ?_, ?_, ?_⟩
  · simp only [decrypt, hkey]
    rw [if_neg hne]
    exact ⟨_, rfl⟩
  · intro hb
    simp only [decrypt, hkey]
    rw [if_neg hne, hb]
  · intro raw hb hmac hne2
    simp only [decrypt, hkey]
    rw [if_neg hne]
    simp [hb, hmac, hne2]
  · intro raw hb hmac hhc hopen
    simp only [decrypt, hkey]
    rw [if_neg hne]
    simp [hb, hmac, hhc, hopen]

/-- Degenerate primitives for the C6 witness: base64 decoding always fails. -/
def c6Prims : CryptoPrims :=
  { sha256 := fun _ => [], aeadSeal := fun _ _ pl => pl, aeadOpen := fun _ _ _ => none,
    jsonDumps := fun _ => [], jsonLoads := fun _ => none,
    b64encode := fun _ => "", b64decode := fun _ => none }

/-- C6 witness: an unlocked state decrypting garbage gets `.ok none`, not an
exception. -/
theorem decrypt_fail_closed_witness :
    decrypt c6Prims true ⟨true, some [1]⟩ "garbage" = .ok none :=
  (decrypt_fail_closed c6Prims true ⟨true, some [1]⟩ "garbage" [1] rfl (by decide)).2.1 rfl

/-- C5 (amended): while locked both `encrypt` and `decrypt` raise
RuntimeError; while unlocked the round trip `decrypt (encrypt data) = data`
holds given correct primitives — in AEAD mode *provided* the random 12-byte
nonce does not begin with the ASCII bytes 'HMAC' (such blobs are misparsed by
`decrypt` as the HMAC-fallback format), and unconditionally in the no-AEAD
fallback mode. -/
theorem locked_raise_and_unlocked_roundtrip (p : CryptoPrims) (st : EncState)
    (data : JsonDict) (nonce : Bytes) (key : Bytes) :
    (st.derived_key = none →
      (∀ hc : Bool, ∃ e, encrypt p hc st data nonce = .error e) ∧
      (∀ (hc : Bool) (blob : String), ∃ e, decrypt p hc st blob = .error e)) ∧
    (st.derived_key = some key → key ≠ [] → nonce.length = 12 →
      nonce.take 4 ≠ hmacMagic →
      p.b64decode (p.b64encode (nonce ++ p.aeadSeal key nonce (p.jsonDumps data)))
        = some (nonce ++ p.aeadSeal key nonce (p.jsonDumps data)) →
      p.aeadOpen key nonce (p.aeadSeal key nonce (p.jsonDumps data))
        = some (p.jsonDumps data) →
      p.jsonLoads (p.jsonDumps data) = some data →
      encrypt p true st data nonce
        = .ok (p.b64encode (nonce ++ p.aeadSeal key nonce (p.jsonDumps data))) ∧
      decrypt p true st (p.b64encode (nonce ++ p.aeadSeal key nonce (p.jsonDumps data)))
        = .ok (some data)) ∧
    (st.derived_key = some key → key ≠ [] →
      (p.sha256 (key ++ p.jsonDumps data)).length = 32 →
      p.b64decode (p.b64encode
          (hmacMagic ++ p.sha256 (key ++ p.jsonDumps data) ++ p.jsonDumps data))
        = some (hmacMagic ++ p.sha256 (key ++ p.jsonDumps data) ++ p.jsonDumps data) →
      p.jsonLoads (p.jsonDumps data) = some data →
      encrypt p false st data nonce
        = .ok (p.b64encode
            (hmacMagic ++ p.sha256 (key ++ p.jsonDumps data) ++ p.jsonDumps data)) ∧
      decrypt p false st (p.b64encode
          (hmacMagic ++ p.sha256 (key ++ p.jsonDumps data) ++ p.jsonDumps data))
        = .ok (some data)) := by
  refine ⟨?_, ?_, ?_⟩
  · intro hnone
    constructor
    · intro hc
      unfold encrypt
      rw [hnone]
      exact ⟨_, rfl⟩
    · intro hc blob
      unfold decrypt
      rw [hnone]
      exact ⟨_, rfl⟩
  · intro hkey hne hnl hmg hb64 hopen hload
    constructor
    · simp only [encrypt, hkey]
      rw [if_neg hne]
      rfl
    · simp only [decrypt, hkey]
      rw [if_neg hne]
      have htake4 : (nonce ++ p.aeadSeal key nonce (p.jsonDumps data)).take 4 = nonce.take 4 :=
        take_append_of_le nonce _ 4 (by omega)
      have htake12 : (nonce ++ p.aeadSeal key nonce (p.jsonDumps data)).take 12 = nonce :=
        List.take_left' hnl
      have hdrop12 : (nonce ++ p.aeadSeal key nonce (p.jsonDumps data)).drop 12
          = p.aeadSeal key nonce (p.jsonDumps data) :=
        List.drop_left' hnl
      simp [hb64, htake4, hmg, htake12, hdrop12, hopen, hload]
  · intro hkey hne hlen32 hb64 hload
    constructor
    · simp only [encrypt, hkey]
      rw [if_neg hne]
      rfl
    · simp only [decrypt, hkey]
      rw [if_neg hne]
      have hassoc : hmacMagic ++ p.sha256 (key ++ p.jsonDumps data) ++ p.jsonDumps data
          = hmacMagic ++ (p.sha256 (key ++ p.jsonDumps data) ++ p.jsonDumps data) := by
        rw [List.append_assoc]
      have htake4 : (hmacMagic ++ p.sha256 (key ++ p.jsonDumps data)
            ++ p.jsonDumps data).take 4 = hmacMagic := by
        rw [hassoc]
        exact List.take_left' rfl
      have hdrop4 : (hmacMagic ++ p.sha256 (key ++ p.jsonDumps data)
            ++ p.jsonDumps data).drop 4
          = p.sha256 (key ++ p.jsonDumps data) ++ p.jsonDumps data := by
        rw [hassoc]
        exact List.drop_left' rfl
      have htake32 : ((hmacMagic ++ p.sha256 (key ++ p.jsonDumps data)
            ++ p.jsonDumps data).drop 4).take 32 = p.sha256 (key ++ p.jsonDumps data) := by
        rw [hdrop4]
        exact List.take_left' hlen32
      have hdrop36 : (hmacMagic ++ p.sha256 (key ++ p.jsonDumps data)
            ++ p.jsonDumps data).drop 36 = p.jsonDumps data := by
        apply List.drop_left'
        rw [List.length_append, hlen32]
        rfl
      simp only [hassoc] at hb64 htake4 htake32 hdrop36
      simp [hb64, htake4, htake32, hdrop36, hload]

/-- Concrete correct primitives for the C5 witness and counterexample: the
AEAD appends a 16-byte tag, JSON maps the sample dict to a fixed byte string,
base64 shifts bytes into printable characters. -/
def rtPrims : CryptoPrims :=
  { sha256 := fun _ => List.replicate 32 0,
    aeadSeal := fun _ _ pl => pl ++ List.replicate 16 0,
    aeadOpen := fun _ _ c => some (c.take (c.length - 16)),
    jsonDumps := fun _ => List.replicate 30 2,
    jsonLoads := fun b => if b = List.replicate 30 2 then some [("a", "b")] else none,
    b64encode := fun bs => String.mk (bs.map (fun n => Char.ofNat (n + 33))),
    b64decode := fun s => some (s.toList.map (fun c => c.toNat - 33)) }

/-- An unlocked state for the C5 witness and counterexample. -/
def rtState : EncState := ⟨true, some [7]⟩

/-- A well-behaved 12-byte nonce (does not start with 'HMAC'). -/
def goodNonce : Bytes := List.replicate 12 0

/-- C5 witness: with the key absent both operations raise, and with the
concrete primitives, unlocked state and a good nonce the round trip returns
the data. -/
theorem locked_raise_and_unlocked_roundtrip_witness :
    (∃ e, encrypt rtPrims true ⟨true, none⟩ [("a", "b")] goodNonce = .error e) ∧
    encrypt rtPrims true rtState [("a", "b")] goodNonce
      = .ok (rtPrims.b64encode
          (goodNonce ++ rtPrims.aeadSeal [7] goodNonce (rtPrims.jsonDumps [("a", "b")]))) ∧
    decrypt rtPrims true rtState (rtPrims.b64encode
        (goodNonce ++ rtPrims.aeadSeal [7] goodNonce (rtPrims.jsonDumps [("a", "b")])))
      = .ok (some [("a", "b")]) := by
  refine ⟨?_, ?_, ?_⟩
  · exact ((locked_raise_and_unlocked_roundtrip rtPrims ⟨true, none⟩ [("a", "b")] goodNonce
      [7]).1 rfl).1 true
  · exact ((locked_raise_and_unlocked_roundtrip rtPrims rtState [("a", "b")] goodNonce
      [7]).2.1 rfl (by decide) (by decide) (by decide) (by decide) (by decide) (by decide)).1
  · exact ((locked_raise_and_unlocked_roundtrip rtPrims rtState [("a", "b")] goodNonce
      [7]).2.1 rfl (by decide) (by decide) (by decide) (by decide) (by decide) (by decide)).2

/-- A 12-byte nonce whose first four bytes are the ASCII of 'HMAC'. -/
def badNonce : Bytes := [72, 77, 65, 67, 1, 1, 1, 1, 1, 1, 1, 1]

/-- C5 counterexample: with correct primitives (AEAD and JSON round-trips
hold, base64 round-trips on this blob, 12-byte nonce) and an unlocked state,
a nonce beginning with the ASCII bytes 'HMAC' makes `decrypt` misparse the
AEAD blob as the HMAC-fallback format and return no data:
`decrypt (encrypt data) = ok none ≠ ok (some data)`. -/
theorem roundtrip_hmac_nonce_counterexample :
    rtPrims.aeadOpen [7] badNonce
        (rtPrims.aeadSeal [7] badNonce (rtPrims.jsonDumps [("a", "b")]))
      = some (rtPrims.jsonDumps [("a", "b")]) ∧
    rtPrims.jsonLoads (rtPrims.jsonDumps [("a", "b")]) = some [("a", "b")] ∧
    rtPrims.b64decode (rtPrims.b64encode
        (badNonce ++ rtPrims.aeadSeal [7] badNonce (rtPrims.jsonDumps [("a", "b")])))
      = some (badNonce ++ rtPrims.aeadSeal [7] badNonce (rtPrims.jsonDumps [("a", "b")])) ∧
    badNonce.length = 12 ∧
    encrypt rtPrims true rtState [("a", "b")] badNonce
      = .ok (rtPrims.b64encode
          (badNonce ++ rtPrims.aeadSeal [7] badNonce (rtPrims.jsonDumps [("a", "b")]))) ∧
    decrypt rtPrims true rtState (rtPrims.b64encode
        (badNonce ++ rtPrims.aeadSeal [7] badNonce (rtPrims.jsonDumps [("a", "b")])))
      = .ok none := by
  refine ⟨by decide, by decide, by decide, by decide, by decide, by decide⟩

end Sentinel
